import Mathlib

/-!
Verification of the marker search subsystem: cross-reference store mutations
(`Marker.setLabels`, `Marker.getLabels` from the Marker type module), the
search-document builder (`createMarkerSearchDoc`), the bulk index
synchronizer (`indexMarkers`) and the query translator (`searchMarkers`,
from `src/search/marker.ts`), embedded shallowly as pure Lean functions.

The document store is passed explicitly as lists; asynchronous database and
index-engine calls are modelled by explicit state passing.  Collaborators
that are only declared in the sources (the `CrossReference` record shape,
`Label.getById`, `Scene.getById`, `Scene.getActors`, and the query helpers
from `src/search/common.ts`) are modelled from the specification; each such
definition carries a doc comment starting with "Modelled from the spec".
-/

/-- A label entity: id, display name and alias names. -/
structure Label where
  _id : String
  name : String
  aliases : List String
deriving DecidableEq

/-- An actor entity: id, display name and alias names. -/
structure Actor where
  _id : String
  name : String
  aliases : List String
deriving DecidableEq

/-- A scene entity (only the fields the marker search path reads). -/
structure Scene where
  _id : String
  name : String
deriving DecidableEq

/-- A marker entity, following the field list of the `Marker` class
(`customFields` is an opaque bag the search path never reads and is
omitted). -/
structure Marker where
  _id : String
  name : String
  addedOn : Nat
  favorite : Bool
  bookmark : Option Int
  rating : Nat
  scene : String
  time : Nat
  thumbnail : Option String
deriving DecidableEq

/-- Modelled from the spec: the `CrossReference` record class is not among
the sources; per the spec the cross-reference store persists documents
shaped `\x7b_id, from, to\x7d`, a directed edge between typed entities.
`from` is a Lean keyword, so the field is called `from_`; `_id` is a
natural number drawn from a fresh-id counter, standing for the unique hash
ids the constructor generates. -/
structure CrossReference where
  _id : Nat
  from_ : String
  to_ : String
deriving DecidableEq

/-- The cross-reference collection together with the fresh-id counter that
models unique hash generation for newly constructed edges. -/
structure CrossStore where
  refs : List CrossReference
  nextId : Nat
deriving DecidableEq

/-- Well-formedness of a cross-reference store: ids are pairwise distinct
and the counter is ahead of every stored id (so freshly inserted edges
never collide with stored ones). -/
def CrossStore.WF (s : CrossStore) : Prop :=
  (s.refs.map (fun r => r._id)).Nodup ∧ ∀ r ∈ s.refs, r._id < s.nextId

instance (s : CrossStore) : Decidable s.WF := by
  unfold CrossStore.WF; infer_instance

/-- Byte-for-byte embedding of `String.prototype.startsWith` restricted to
the uses in the sources (prefix tests such as `r.to_.startsWith("la_")`),
written over the character list so that it evaluates by `rfl`/`decide`. -/
def strHasPref (p s : String) : Bool :=
  go p.data s.data
where
  go : List Char → List Char → Bool
  | [], _ => true
  | _ :: _, [] => false
  | c :: cs, d :: ds => c == d && go cs ds

/-- `CrossReference.getBySource(from)`: all edges whose source is `from_`
(a `database.find` on the cross-reference collection). -/
def CrossReference.getBySource (refs : List CrossReference) (from_ : String) :
    List CrossReference :=
  refs.filter (fun r => r.from_ == from_)

/-- Insertion-order deduplication, the embedding of `[...new Set(labelIds)]`:
keeps the first occurrence of each element. -/
def dedupKeepFirst (l : List String) : List String :=
  go [] l
where
  go : List String → List String → List String
  | _, [] => []
  | seen, x :: xs =>
    if seen.contains x then go seen xs else x :: go (seen ++ [x]) xs

/-- The sequence of `new CrossReference(from, id); database.insert(...)`
steps of `Marker.setLabels`: one edge per target id, with consecutively
drawn fresh ids. -/
def insertRefs (from_ : String) (nextId : Nat) : List String → List CrossReference
  | [] => []
  | t :: ts => { _id := nextId, from_ := from_, to_ := t } :: insertRefs from_ (nextId + 1) ts

/-- `Marker.setLabels(marker, labelIds)`: fetch the marker's outgoing
edges, delete (by id) those whose target has the label prefix `la_`, then
insert one fresh edge per unique id of `labelIds` in first-occurrence
order. -/
def Marker.setLabels (store : CrossStore) (marker : Marker) (labelIds : List String) :
    CrossStore :=
  let references := CrossReference.getBySource store.refs marker._id
  let oldLabelReferences :=
    (references.filter (fun r => strHasPref "la_" r.to_)).map (fun r => r._id)
  let afterDelete :=
    oldLabelReferences.foldl (fun refs i => refs.filter (fun r => r._id != i)) store.refs
  let uniques := dedupKeepFirst labelIds
  { refs := afterDelete ++ insertRefs marker._id store.nextId uniques,
    nextId := store.nextId + uniques.length }

/-- Modelled from the spec: `Label.getById` is not among the sources; per
the spec the entity store exposes `findOne(predicate)`, here a lookup of
the first label with the given id. -/
def Label.getById (labelStore : List Label) (id : String) : Option Label :=
  labelStore.find? (fun l => l._id == id)

/-- `Marker.getLabels(marker)`: the marker's outgoing edges with the label
prefix, resolved through `Label.getById`; the `.filter(Boolean)` step drops
targets that no longer resolve. -/
def Marker.getLabels (refs : List CrossReference) (labelStore : List Label)
    (marker : Marker) : List Label :=
  ((CrossReference.getBySource refs marker._id).filter
      (fun r => strHasPref "la_" r.to_)).filterMap
    (fun r => Label.getById labelStore r.to_)

/-- Modelled from the spec: `Scene.getById` is not among the sources; a
`findOne` on the scene collection. -/
def Scene.getById (sceneStore : List Scene) (id : String) : Option Scene :=
  sceneStore.find? (fun s => s._id == id)

/-- Modelled from the spec: `Actor.getById` is not among the sources; a
`findOne` on the actor collection. -/
def Actor.getById (actorStore : List Actor) (id : String) : Option Actor :=
  actorStore.find? (fun a => a._id == id)

/-- Modelled from the spec: `Scene.getActors` is not among the sources; per
the spec a scene's actors are resolved through cross-reference store
lookups keyed by the scene's id (`getBySource(scene._id)` restricted to the
actor prefix, resolved and with unresolved targets dropped).  Crucially it
dereferences its scene argument, so it can only be entered with an actual
scene. -/
def Scene.getActors (refs : List CrossReference) (actorStore : List Actor)
    (scene : Scene) : List Actor :=
  ((CrossReference.getBySource refs scene._id).filter
      (fun r => strHasPref "ac_" r.to_)).filterMap
    (fun r => Actor.getById actorStore r.to_)

/-- The denormalized marker search document (`IMarkerSearchDoc`). -/
structure MarkerSearchDoc where
  _id : String
  addedOn : Nat
  name : String
  actors : List String
  actorNames : List String
  labels : List String
  labelNames : List String
  rating : Nat
  bookmark : Option Int
  favorite : Bool
  scene : String
  sceneName : String
deriving DecidableEq

/-- Runtime failure of the search-document builder.  `typeError` models the
JavaScript `TypeError` raised when `Scene.getActors` dereferences the null
scene that `(await Scene.getById(marker.scene))!` silences with a non-null
assertion. -/
inductive SearchError where
  | typeError
deriving DecidableEq

/-- `createMarkerSearchDoc(marker)`: resolves the marker's labels, its
scene and the scene's actors, and assembles the flattened document.  The
source applies `Scene.getActors` to `(await Scene.getById(marker.scene))!`
before the `scene ? ... : ""` guards run, so a missing scene faults inside
`getActors` (modelled as `SearchError.typeError`) and the guards' empty
branches are unreachable. -/
def createMarkerSearchDoc (refs : List CrossReference) (labelStore : List Label)
    (sceneStore : List Scene) (actorStore : List Actor) (marker : Marker) :
    Except SearchError MarkerSearchDoc :=
  let labels := Marker.getLabels refs labelStore marker
  match Scene.getById sceneStore marker.scene with
  | none => .error .typeError
  | some scene =>
    let actors := Scene.getActors refs actorStore scene
    .ok
      { _id := marker._id
        addedOn := marker.addedOn
        name := marker.name
        actors := actors.map (fun a => a._id)
        actorNames := (actors.map (fun a => a.name :: a.aliases)).flatten
        labels := labels.map (fun l => l._id)
        labelNames := (labels.map (fun l => l.name :: l.aliases)).flatten
        scene := scene._id
        sceneName := scene.name
        rating := marker.rating
        bookmark := marker.bookmark
        favorite := marker.favorite }

/-- `argv["index-slice-size"] || 5000`: an absent or zero (falsy)
command-line value falls back to the default slice size of 5000. -/
def effectiveSliceSize (sliceArg : Option Nat) : Nat :=
  match sliceArg with
  | some n => if n = 0 then 5000 else n
  | none => 5000

/-- The batching loop of `indexMarkers`: push each document onto the
accumulator, flush (emit the batch and clear) exactly when the accumulator
reaches the slice size, and flush the final partial batch after the loop.
Returns the list of flushed batches in flush order. -/
def indexGo (s : Nat) : List MarkerSearchDoc → List MarkerSearchDoc →
    List (List MarkerSearchDoc)
  | batch, [] => if batch.isEmpty then [] else [batch]
  | batch, d :: rest =>
    if (batch ++ [d]).length = s then (batch ++ [d]) :: indexGo s [] rest
    else indexGo s (batch ++ [d]) rest

/-- The batches `indexMarkers(markers)` hands to `addMarkerSearchDocs`
(hence to the index engine), in order.  `build` is the per-marker document
construction (`createMarkerSearchDoc`, assumed to succeed on every marker
of the run, as the bulk build does). -/
def indexMarkersFlushes (sliceArg : Option Nat) (build : Marker → MarkerSearchDoc)
    (markers : List Marker) : List (List MarkerSearchDoc) :=
  indexGo (effectiveSliceSize sliceArg) [] (markers.map build)

/-- The `numItems` total `indexMarkers` returns: the documents counted at
each flush, summed over all flushes. -/
def indexMarkers (sliceArg : Option Nat) (build : Marker → MarkerSearchDoc)
    (markers : List Marker) : Nat :=
  ((indexMarkersFlushes sliceArg build markers).map List.length).sum

/-- The structured marker search query (`Partial<IMarkerSearchQuery>`).
`include` is a Lean keyword, so that field is called `include_`. -/
structure MarkerSearchQuery where
  query : Option String
  favorite : Option Bool
  bookmark : Option Bool
  rating : Option Nat
  include_ : Option (List String)
  exclude : Option (List String)
  sortBy : Option String
  sortDir : Option String
  skip : Option Nat
  take : Option Nat
  page : Option Nat
deriving DecidableEq

/-- A leaf value of the index engine's filter tree. -/
inductive FilterValue where
  | str (s : String)
  | num (n : Int)
  | boolean (b : Bool)
deriving DecidableEq

/-- The index engine's recursive filter tree: groupings (`AND`/`OR`) over
children, or leaf field predicates. -/
inductive FilterTree where
  | condition (operation : String) (property : String) (ctype : String) (value : FilterValue)
  | grouping (gtype : String) (children : List FilterTree)

/-- The root grouping node the translator builds
(`IFilterTreeGrouping`). -/
structure FilterTreeGrouping where
  gtype : String
  children : List FilterTree

/-- Modelled from the spec: `filterFavorites` of `src/search/common.ts` is
not among the sources; per the spec an active favorite filter appends one
boolean predicate child on the `favorite` field, an inactive one appends
nothing. -/
def filterFavorites (filter : FilterTreeGrouping) (options : MarkerSearchQuery) :
    FilterTreeGrouping :=
  if options.favorite = some true then
    { filter with
      children := filter.children ++ [.condition "=" "favorite" "boolean" (.boolean true)] }
  else filter

/-- Modelled from the spec: `filterBookmark` of `src/search/common.ts` is
not among the sources; per the spec an active bookmark filter appends one
existence predicate child on the `bookmark` field. -/
def filterBookmark (filter : FilterTreeGrouping) (options : MarkerSearchQuery) :
    FilterTreeGrouping :=
  if options.bookmark = some true then
    { filter with
      children := filter.children ++ [.condition ">" "bookmark" "number" (.num 0)] }
  else filter

/-- Modelled from the spec: `filterRating` of `src/search/common.ts` is not
among the sources; per the spec an active (nonzero) rating filter appends
one "at least N" threshold child on the `rating` field. -/
def filterRating (filter : FilterTreeGrouping) (options : MarkerSearchQuery) :
    FilterTreeGrouping :=
  match options.rating with
  | some r =>
    if r ≠ 0 then
      { filter with
        children := filter.children ++ [.condition ">" "rating" "number" (.num ((r : Int) - 1))] }
    else filter
  | none => filter

/-- Modelled from the spec: `filterInclude` of `src/search/common.ts` is
not among the sources; per the spec an active (nonempty) include filter
appends ONE child, an `AND` grouping requiring membership of every listed
id in the multi-valued `labels` field. -/
def filterInclude (filter : FilterTreeGrouping) (options : MarkerSearchQuery) :
    FilterTreeGrouping :=
  match options.include_ with
  | some ids =>
    if ids ≠ [] then
      { filter with
        children := filter.children ++
          [.grouping "AND" (ids.map (fun id => .condition "?" "labels" "array" (.str id)))] }
    else filter
  | none => filter

/-- Modelled from the spec: `filterExclude` of `src/search/common.ts` is
not among the sources; per the spec an active (nonempty) exclude filter
appends ONE child, an `AND` grouping requiring absence of every listed id
from the multi-valued `labels` field. -/
def filterExclude (filter : FilterTreeGrouping) (options : MarkerSearchQuery) :
    FilterTreeGrouping :=
  match options.exclude with
  | some ids =>
    if ids ≠ [] then
      { filter with
        children := filter.children ++
          [.grouping "AND" (ids.map (fun id => .condition "!?" "labels" "array" (.str id)))] }
    else filter
  | none => filter

/-- The filter tree `searchMarkers` builds: the root `AND` grouping with an
empty child list, threaded through the five filter helpers in source
order. -/
def buildMarkerFilter (options : MarkerSearchQuery) : FilterTreeGrouping :=
  filterExclude
    (filterInclude (filterRating (filterBookmark (filterFavorites ⟨"AND", []⟩ options) options) options) options)
    options

/-- The index engine's sort specification (`ISortOptions`): `sort_type` is
a scalar type tag for field sorts, the seed for the shuffle sort, and
`undefined` (`none`) when the key lookup misses. -/
structure SortOptions where
  sort_by : String
  sort_asc : Bool
  sort_type : Option String
deriving DecidableEq

/-- The literal `\x7baddedOn: "number", name: "string", rating: "number",
bookmark: "number"\x7d[options.sortBy]` lookup: maps a recognized sort key
to its value-type tag and anything else to `undefined`. -/
def sortTypeFor (k : String) : Option String :=
  if k = "addedOn" then some "number"
  else if k = "name" then some "string"
  else if k = "rating" then some "number"
  else if k = "bookmark" then some "number"
  else none

/-- The sort branch of `searchMarkers`: no `sortBy` (or the falsy empty
string) leaves the sort undefined; `$shuffle` emits the shuffle spec
carrying the seed in `sort_type`; any other key is looked up in the type
map and emitted as a field sort, with `sort_type` left `undefined` when
the lookup misses. -/
def buildMarkerSort (options : MarkerSearchQuery) (shuffleSeed : String) :
    Option SortOptions :=
  match options.sortBy with
  | none => none
  | some k =>
    if k = "" then none
    else if k = "$shuffle" then
      some { sort_by := "$shuffle", sort_asc := false, sort_type := some shuffleSeed }
    else
      some { sort_by := k, sort_asc := decide (options.sortDir = some "asc"),
             sort_type := sortTypeFor k }

/-- The normalized skip/take pair handed to the index engine. -/
structure Pagination where
  skip : Nat
  take : Nat
deriving DecidableEq

/-- Modelled from the spec: `buildPagination` of `src/search/common.ts` is
not among the sources; per the spec it normalizes `(take, skip, page)` to
a single skip/take pair: explicit `take`/`skip` are used as given; an
absent `skip` with `page` present computes `skip = page * pageSize`
(0-based pages); absent everything yields `skip = 0` and the default page
size as `take`.  The page size is a parameter since the spec fixes only
the invariants, not the constant. -/
def buildPagination (pageSize : Nat) (take? skip? page? : Option Nat) : Pagination :=
  { take := take?.getD pageSize
    skip := skip?.getD (match page? with | some p => p * pageSize | none => 0) }

/-- The implicit page size of the marker search path. -/
def defaultPageSize : Nat := 24

/-- The request `searchMarkers` submits to `index.search`: the query text,
the sort spec, the filter tree and the normalized pagination. -/
structure SearchRequest where
  query : Option String
  sort : Option SortOptions
  filter : FilterTreeGrouping
  pagination : Pagination

/-- `searchMarkers(options, shuffleSeed)` up to the `index.search` call:
the translator is a pure function from the structured query (plus seed) to
the engine request; it has no failure path. -/
def searchMarkers (options : MarkerSearchQuery) (shuffleSeed : String) :
    SearchRequest :=
  { query := options.query
    sort := buildMarkerSort options shuffleSeed
    filter := buildMarkerFilter options
    pagination := buildPagination defaultPageSize options.take options.skip options.page }

/-- The number of active filters of a query: favorite and bookmark when set
to true, rating when nonzero, include and exclude when nonempty. -/
def numActiveFilters (o : MarkerSearchQuery) : Nat :=
  (if o.favorite = some true then 1 else 0) +
  (if o.bookmark = some true then 1 else 0) +
  (if (o.rating.getD 0) ≠ 0 then 1 else 0) +
  (if (o.include_.getD []) ≠ [] then 1 else 0) +
  (if (o.exclude.getD []) ≠ [] then 1 else 0)

/-- The Boolean predicate `Marker.setLabels` deletes by and `getLabels`
selects by: an edge sourced at the marker whose target carries the label
prefix (the conjunct order matches the composed source filters). -/
def isMarkerLabelRef (markerId : String) (r : CrossReference) : Bool :=
  strHasPref "la_" r.to_ && r.from_ == markerId

/-- A concrete marker fixture. -/
def m0 : Marker := ⟨"mk_1", "m", 0, false, none, 0, "sc_1", 0, none⟩

/-- A concrete marker whose scene id resolves to no stored scene. -/
def m1 : Marker := ⟨"mk_9", "m9", 0, false, none, 0, "sc_gone", 0, none⟩

/-- A concrete search document fixture. -/
def doc0 : MarkerSearchDoc := ⟨"", 0, "", [], [], [], [], 0, none, false, "", ""⟩

/-- A concrete cross-reference store fixture: the marker `mk_1` has one
label edge and one actor edge, and another entity `mk_2` has a label
edge. -/
def store0 : CrossStore :=
  ⟨[⟨0, "mk_1", "la_old"⟩, ⟨1, "mk_1", "ac_a"⟩, ⟨2, "mk_2", "la_old"⟩], 3⟩

/-- A concrete label fixture. -/
def lbl0 : Label := ⟨"la_a", "alpha", ["al"]⟩

/-- A concrete scene fixture matching `m0.scene`. -/
def sc0 : Scene := ⟨"sc_1", "scene one"⟩

/-- A query with every field absent. -/
def qNoFilters : MarkerSearchQuery :=
  ⟨none, none, none, none, none, none, none, none, none, none, none⟩

/-- A query whose sort key is set but unrecognized. -/
def qBadSort : MarkerSearchQuery :=
  ⟨none, none, none, none, none, none, some "invalidKey", none, none, none, none⟩

/-- A query requesting the seeded shuffle sort. -/
def qShuffle : MarkerSearchQuery :=
  ⟨none, none, none, none, none, none, some "$shuffle", none, none, none, none⟩

/-! ### Lemmas about the bulk-indexing batch loop -/

theorem indexGo_nil (s : Nat) (batch : List MarkerSearchDoc) :
    indexGo s batch [] = if batch.isEmpty then [] else [batch] := rfl

theorem indexGo_cons (s : Nat) (batch : List MarkerSearchDoc) (d : MarkerSearchDoc)
    (rest : List MarkerSearchDoc) :
    indexGo s batch (d :: rest) =
      if (batch ++ [d]).length = s then (batch ++ [d]) :: indexGo s [] rest
      else indexGo s (batch ++ [d]) rest := rfl

theorem indexGo_flatten (s : Nat) :
    ∀ (docs batch : List MarkerSearchDoc), (indexGo s batch docs).flatten = batch ++ docs := by
  intro docs
  induction docs with
  | nil =>
    intro batch
    cases batch <;> simp [indexGo_nil]
  | cons d rest ih =>
    intro batch
    rw [indexGo_cons]
    by_cases h : (batch ++ [d]).length = s
    · rw [if_pos h]; simp [ih]
    · rw [if_neg h]; simp [ih]

theorem indexGo_exact (s : Nat) (hs : 1 ≤ s) :
    ∀ (docs batch : List MarkerSearchDoc), batch.length + docs.length = s →
      indexGo s batch docs = [batch ++ docs] := by
  intro docs
  induction docs with
  | nil =>
    intro batch h
    simp only [List.length_nil, Nat.add_zero] at h
    cases batch with
    | nil => simp at h; omega
    | cons b bs => simp [indexGo_nil]
  | cons d rest ih =>
    intro batch h
    rw [indexGo_cons]
    by_cases hif : (batch ++ [d]).length = s
    · have hrest : rest = [] := by
        simp only [List.length_append, List.length_singleton] at hif
        simp only [List.length_cons] at h
        have : rest.length = 0 := by omega
        exact List.eq_nil_of_length_eq_zero this
      subst hrest
      simp [hif, indexGo_nil]
    · have h' : (batch ++ [d]).length + rest.length = s := by
        simp only [List.length_append, List.length_singleton]
        simp only [List.length_cons] at h
        omega
      rw [if_neg hif, ih (batch ++ [d]) h']
      simp

theorem indexGo_singleton (s : Nat) (d : MarkerSearchDoc) :
    indexGo s [] [d] = [[d]] := by
  rw [indexGo_cons]
  by_cases h : (([] : List MarkerSearchDoc) ++ [d]).length = s
  · rw [if_pos h]; simp [indexGo_nil]
  · rw [if_neg h]; simp [indexGo_nil]

theorem indexGo_overflow (s : Nat) :
    ∀ (docs batch : List MarkerSearchDoc), batch.length < s →
      batch.length + docs.length = s + 1 →
      indexGo s batch docs = [(batch ++ docs).take s, (batch ++ docs).drop s] := by
  intro docs
  induction docs with
  | nil =>
    intro batch h1 h2
    simp only [List.length_nil, Nat.add_zero] at h2
    omega
  | cons d rest ih =>
    intro batch h1 h2
    rw [indexGo_cons]
    by_cases hif : (batch ++ [d]).length = s
    · have hrest : rest.length = 1 := by
        simp only [List.length_append, List.length_singleton] at hif
        simp only [List.length_cons] at h2
        omega
      obtain ⟨r, hr⟩ := List.length_eq_one.mp hrest
      subst hr
      rw [if_pos hif, indexGo_singleton]
      have hb : batch ++ d :: [r] = (batch ++ [d]) ++ [r] := by simp
      rw [hb, ← hif, List.take_left, List.drop_left]
    · have h1' : (batch ++ [d]).length < s := by
        simp only [List.length_append, List.length_singleton] at hif ⊢
        simp only [List.length_cons] at h2
        omega
      have h2' : (batch ++ [d]).length + rest.length = s + 1 := by
        simp only [List.length_append, List.length_singleton]
        simp only [List.length_cons] at h2
        omega
      rw [if_neg hif, ih (batch ++ [d]) h1' h2']
      simp

theorem effectiveSliceSize_pos (a : Option Nat) : 1 ≤ effectiveSliceSize a := by
  cases a with
  | none => simp [effectiveSliceSize]
  | some n =>
    simp only [effectiveSliceSize]
    split <;> omega

/-- Claim C2: for every list of markers and slice size, the bulk build
accumulates documents in enumeration order and flushes exactly at the
slice boundary, with a final partial flush: every document appears in
exactly one flush in order; exactly N entities with slice size N produce
one flush of N documents; N+1 entities with slice size N produce two
flushes, of N and then 1 documents. -/
theorem indexMarkers_flush_boundary (sliceArg : Option Nat)
    (build : Marker → MarkerSearchDoc) (markers : List Marker) :
    (indexMarkersFlushes sliceArg build markers).flatten = markers.map build ∧
    (markers.length = effectiveSliceSize sliceArg →
      indexMarkersFlushes sliceArg build markers = [markers.map build]) ∧
    (markers.length = effectiveSliceSize sliceArg + 1 →
      indexMarkersFlushes sliceArg build markers =
        [(markers.map build).take (effectiveSliceSize sliceArg),
         (markers.map build).drop (effectiveSliceSize sliceArg)] ∧
      (indexMarkersFlushes sliceArg build markers).map List.length =
        [effectiveSliceSize sliceArg, 1]) := by
  refine ⟨?_, ?_, ?_⟩
  · unfold indexMarkersFlushes
    rw [indexGo_flatten]
    simp
  · intro h
    unfold indexMarkersFlushes
    rw [indexGo_exact (effectiveSliceSize sliceArg) (effectiveSliceSize_pos sliceArg)
      (markers.map build) [] (by simp [h])]
    simp
  · intro h
    have hover : indexMarkersFlushes sliceArg build markers =
        [(markers.map build).take (effectiveSliceSize sliceArg),
         (markers.map build).drop (effectiveSliceSize sliceArg)] := by
      unfold indexMarkersFlushes
      have := indexGo_overflow (effectiveSliceSize sliceArg) (markers.map build) []
        (by simp [effectiveSliceSize_pos sliceArg]
            have := effectiveSliceSize_pos sliceArg
            omega)
        (by simp [h])
      simpa using this
    refine ⟨hover, ?_⟩
    rw [hover]
    simp only [List.map_cons, List.map_nil, List.length_take, List.length_drop,
      List.length_map, h]
    have hpos := effectiveSliceSize_pos sliceArg
    have h1 : effectiveSliceSize sliceArg ⊓ (effectiveSliceSize sliceArg + 1) =
        effectiveSliceSize sliceArg := by omega
    have h2 : effectiveSliceSize sliceArg + 1 - effectiveSliceSize sliceArg = 1 := by omega
    rw [h1, h2]

/-- All flushed batches of a bulk build, concatenated in flush order, give
back exactly the documents of the input markers (shared helper). -/
theorem indexMarkersFlushes_flatten (sliceArg : Option Nat)
    (build : Marker → MarkerSearchDoc) (markers : List Marker) :
    (indexMarkersFlushes sliceArg build markers).flatten = markers.map build := by
  unfold indexMarkersFlushes
  rw [indexGo_flatten]
  simp

/-- Claim C9: the total `indexMarkers` returns equals the number of input
markers — each marker contributes exactly one document, counted once
across all flushes. -/
theorem indexMarkers_returns_total (sliceArg : Option Nat)
    (build : Marker → MarkerSearchDoc) (markers : List Marker) :
    indexMarkers sliceArg build markers = markers.length := by
  unfold indexMarkers
  rw [← List.length_flatten, indexMarkersFlushes_flatten]
  simp

/-- Witness for C2: with slice size 2, two markers produce exactly one
flush of two documents, and three markers produce two flushes of sizes 2
and 1. -/
theorem indexMarkers_flush_boundary_witness :
    indexMarkersFlushes (some 2) (fun _ => doc0) [m0, m0] = [[doc0, doc0]] ∧
    indexMarkersFlushes (some 2) (fun _ => doc0) [m0, m0, m0] = [[doc0, doc0], [doc0]] := by
  constructor
  · exact ((indexMarkers_flush_boundary (some 2) (fun _ => doc0) [m0, m0]).2.1
      (by decide)).trans (by decide)
  · exact (((indexMarkers_flush_boundary (some 2) (fun _ => doc0) [m0, m0, m0]).2.2
      (by decide)).1).trans (by decide)

/-! ### Lemmas about the cross-reference mutation path -/

theorem dedupKeepFirst_go_subset (a : String) :
    ∀ (l seen : List String), a ∈ dedupKeepFirst.go seen l → a ∈ l := by
  intro l
  induction l with
  | nil =>
    intro seen h
    simp [dedupKeepFirst.go] at h
  | cons x xs ih =>
    intro seen h
    by_cases hc : seen.contains x
    · simp only [dedupKeepFirst.go, hc, if_true] at h
      exact List.mem_cons_of_mem _ (ih _ h)
    · simp only [dedupKeepFirst.go, hc, if_false, Bool.false_eq_true, List.mem_cons] at h
      rcases h with h | h
      · simp [h]
      · exact List.mem_cons_of_mem _ (ih _ h)

theorem dedupKeepFirst_subset {a : String} {l : List String}
    (h : a ∈ dedupKeepFirst l) : a ∈ l :=
  dedupKeepFirst_go_subset a l [] h

theorem insertRefs_map_to (from_ : String) :
    ∀ (ts : List String) (nextId : Nat),
      (insertRefs from_ nextId ts).map (fun r => r.to_) = ts := by
  intro ts
  induction ts with
  | nil => intro nextId; simp [insertRefs]
  | cons t ts ih => intro nextId; simp [insertRefs, ih]

theorem insertRefs_mem (from_ : String) :
    ∀ (ts : List String) (nextId : Nat) (r : CrossReference),
      r ∈ insertRefs from_ nextId ts → r.from_ = from_ ∧ r.to_ ∈ ts := by
  intro ts
  induction ts with
  | nil => intro nextId r h; simp [insertRefs] at h
  | cons t ts ih =>
    intro nextId r h
    simp only [insertRefs, List.mem_cons] at h
    rcases h with h | h
    · subst h; simp
    · obtain ⟨h1, h2⟩ := ih _ r h
      exact ⟨h1, List.mem_cons_of_mem _ h2⟩

theorem foldl_remove_eq_filter :
    ∀ (ids : List Nat) (refs : List CrossReference),
      ids.foldl (fun refs i => refs.filter (fun r => r._id != i)) refs =
        refs.filter (fun r => !(ids.contains r._id)) := by
  intro ids
  induction ids with
  | nil => intro refs; simp
  | cons i ids ih =>
    intro refs
    rw [List.foldl_cons, ih, List.filter_filter]
    apply List.filter_congr
    intro r _
    simp only [List.contains_cons, Bool.not_or, bne]
    exact Bool.and_comm _ _

theorem nodup_ids_inj {l : List CrossReference}
    (h : (l.map (fun r => r._id)).Nodup) :
    ∀ r ∈ l, ∀ r' ∈ l, r._id = r'._id → r = r' := by
  intro r hr r' hr' hid
  exact List.inj_on_of_nodup_map h hr hr' hid

/-- Under distinct stored ids, `Marker.setLabels` leaves exactly the edges
that are not marker-sourced label edges, followed by the freshly inserted
deduplicated label edges. -/
theorem setLabels_refs (store : CrossStore) (marker : Marker) (labelIds : List String)
    (hnodup : (store.refs.map (fun r => r._id)).Nodup) :
    (Marker.setLabels store marker labelIds).refs =
      store.refs.filter (fun r => !(isMarkerLabelRef marker._id r)) ++
        insertRefs marker._id store.nextId (dedupKeepFirst labelIds) := by
  unfold Marker.setLabels CrossReference.getBySource
  simp only [List.filter_filter]
  rw [foldl_remove_eq_filter]
  congr 1
  apply List.filter_congr
  intro r hr
  congr 1
  set ids := ((store.refs.filter
      (fun r => strHasPref "la_" r.to_ && (r.from_ == marker._id))).map
      (fun r => r._id)) with hids
  show ids.contains r._id = isMarkerLabelRef marker._id r
  by_cases hp : isMarkerLabelRef marker._id r = true
  · rw [hp]
    have hmem : r._id ∈ ids := by
      rw [hids]
      apply List.mem_map_of_mem
      rw [List.mem_filter]
      exact ⟨hr, hp⟩
    simpa using hmem
  · have hp' : isMarkerLabelRef marker._id r = false := by
      cases h : isMarkerLabelRef marker._id r
      · rfl
      · exact absurd h hp
    rw [hp']
    by_cases hc : ids.contains r._id = true
    · exfalso
      have hmem : r._id ∈ ids := by simpa using hc
      rw [hids, List.mem_map] at hmem
      obtain ⟨r', hr', hid⟩ := hmem
      rw [List.mem_filter] at hr'
      have heq : r' = r := nodup_ids_inj hnodup r' hr'.1 r hr hid
      subst heq
      unfold isMarkerLabelRef at hp'
      rw [hr'.2] at hp'
      simp at hp'
    · simpa using hc

/-- Claim C1: `Marker.setLabels` first deletes every cross-reference edge
from the marker whose target has the label prefix, then inserts exactly
one edge per unique id of the input list in first-occurrence order:
whatever label edges existed before, the marker's label edges afterwards
are exactly the deduplicated input ids, so duplicates are a no-op rather
than an error. -/
theorem setLabels_replaces_label_relation (store : CrossStore) (marker : Marker)
    (labelIds : List String)
    (hnodup : (store.refs.map (fun r => r._id)).Nodup)
    (hla : ∀ id ∈ labelIds, strHasPref "la_" id = true) :
    ((Marker.setLabels store marker labelIds).refs.filter
        (isMarkerLabelRef marker._id)).map (fun r => r.to_) =
      dedupKeepFirst labelIds := by
  rw [setLabels_refs store marker labelIds hnodup, List.filter_append]
  have h1 : (store.refs.filter (fun r => !(isMarkerLabelRef marker._id r))).filter
      (isMarkerLabelRef marker._id) = [] := by
    rw [List.filter_filter, List.filter_eq_nil_iff]
    intro r _
    cases h : isMarkerLabelRef marker._id r <;> simp [h]
  have h2 : (insertRefs marker._id store.nextId (dedupKeepFirst labelIds)).filter
      (isMarkerLabelRef marker._id) = insertRefs marker._id store.nextId (dedupKeepFirst labelIds) := by
    rw [List.filter_eq_self]
    intro r hr
    obtain ⟨hfrom, hto⟩ := insertRefs_mem marker._id (dedupKeepFirst labelIds) store.nextId r hr
    unfold isMarkerLabelRef
    simp [hfrom, hla r.to_ (dedupKeepFirst_subset hto)]
  rw [h1, h2, List.nil_append, insertRefs_map_to]

/-- Witness for C1: on a store already holding a label edge and an actor
edge for the marker, setting labels to `[x, x, y]` leaves exactly the two
label edges `marker→x` and `marker→y`. -/
theorem setLabels_replaces_label_relation_witness :
    ((Marker.setLabels store0 m0 ["la_x", "la_x", "la_y"]).refs.filter
        (isMarkerLabelRef m0._id)).map (fun r => r.to_) = ["la_x", "la_y"] := by
  have h := setLabels_replaces_label_relation store0 m0 ["la_x", "la_x", "la_y"]
    (by decide) (by decide)
  exact h.trans (by decide)

/-- Claim C10: `Marker.setLabels` only touches the marker's label-prefixed
edges — every edge from the marker to a non-label target, and every edge
originating from any other source entity, is untouched. -/
theorem setLabels_frame (store : CrossStore) (marker : Marker) (labelIds : List String)
    (hnodup : (store.refs.map (fun r => r._id)).Nodup)
    (hla : ∀ id ∈ labelIds, strHasPref "la_" id = true) :
    ((Marker.setLabels store marker labelIds).refs.filter
        (fun r => !(r.from_ == marker._id)) =
      store.refs.filter (fun r => !(r.from_ == marker._id))) ∧
    ((Marker.setLabels store marker labelIds).refs.filter
        (fun r => r.from_ == marker._id && !(strHasPref "la_" r.to_)) =
      store.refs.filter (fun r => r.from_ == marker._id && !(strHasPref "la_" r.to_))) := by
  rw [setLabels_refs store marker labelIds hnodup]
  constructor
  · rw [List.filter_append]
    have h2 : (insertRefs marker._id store.nextId (dedupKeepFirst labelIds)).filter
        (fun r => !(r.from_ == marker._id)) = [] := by
      rw [List.filter_eq_nil_iff]
      intro r hr
      obtain ⟨hfrom, _⟩ := insertRefs_mem _ _ _ r hr
      simp [hfrom]
    rw [h2, List.append_nil, List.filter_filter]
    apply List.filter_congr
    intro r _
    unfold isMarkerLabelRef
    cases hA : (r.from_ == marker._id) <;> cases hB : strHasPref "la_" r.to_ <;>
      simp [hA, hB]
  · rw [List.filter_append]
    have h2 : (insertRefs marker._id store.nextId (dedupKeepFirst labelIds)).filter
        (fun r => r.from_ == marker._id && !(strHasPref "la_" r.to_)) = [] := by
      rw [List.filter_eq_nil_iff]
      intro r hr
      obtain ⟨hfrom, hto⟩ := insertRefs_mem _ _ _ r hr
      simp [hfrom, hla r.to_ (dedupKeepFirst_subset hto)]
    rw [h2, List.append_nil, List.filter_filter]
    apply List.filter_congr
    intro r _
    unfold isMarkerLabelRef
    cases hA : (r.from_ == marker._id) <;> cases hB : strHasPref "la_" r.to_ <;>
      simp [hA, hB]

/-- Witness for C10: on the concrete store, replacing the marker's labels
leaves its actor edge and the other entity's label edge unchanged. -/
theorem setLabels_frame_witness :
    ((Marker.setLabels store0 m0 ["la_x", "la_x", "la_y"]).refs.filter
        (fun r => !(r.from_ == m0._id)) =
      store0.refs.filter (fun r => !(r.from_ == m0._id))) ∧
    ((Marker.setLabels store0 m0 ["la_x", "la_x", "la_y"]).refs.filter
        (fun r => r.from_ == m0._id && !(strHasPref "la_" r.to_)) =
      store0.refs.filter (fun r => r.from_ == m0._id && !(strHasPref "la_" r.to_))) :=
  setLabels_frame store0 m0 ["la_x", "la_x", "la_y"] (by decide) (by decide)

/-- Claim C3 (evaluation at the failing input): a marker whose scene id
resolves to no stored scene does NOT yield a document with empty
scene-derived fields — the builder faults, because the source applies
`Scene.getActors` to the null scene silenced by the non-null assertion
before any emptiness guard runs. -/
theorem createMarkerSearchDoc_missing_scene_faults :
    createMarkerSearchDoc [] [] [] [] m1 = .error SearchError.typeError := rfl

/-! ### Lemmas about the document builder's label resolution -/

theorem getLabels_mem_store {refs : List CrossReference} {labelStore : List Label}
    {marker : Marker} {l : Label} (h : l ∈ Marker.getLabels refs labelStore marker) :
    l ∈ labelStore := by
  unfold Marker.getLabels Label.getById at h
  rw [List.mem_filterMap] at h
  obtain ⟨r, _, hfind⟩ := h
  exact List.mem_of_find?_eq_some hfind

/-- Claim C8: after deleting a label from the label store, rebuilding a
marker's search document succeeds (provided the marker's scene resolves)
and the deleted label's contribution is absent: its id does not occur in
the `labels` field, and every `labelNames` entry is the name or an alias
of some surviving label. -/
theorem createMarkerSearchDoc_dangling_label (refs : List CrossReference)
    (labelStore : List Label) (sceneStore : List Scene) (actorStore : List Actor)
    (marker : Marker) (lid : String) (scene : Scene)
    (hscene : Scene.getById sceneStore marker.scene = some scene) :
    ∃ doc, createMarkerSearchDoc refs (labelStore.filter (fun l => l._id != lid))
        sceneStore actorStore marker = .ok doc ∧
      lid ∉ doc.labels ∧
      ∀ n ∈ doc.labelNames, ∃ l, l ∈ labelStore.filter (fun l => l._id != lid) ∧
        l._id ≠ lid ∧ (n = l.name ∨ n ∈ l.aliases) := by
  have hid : ∀ l ∈ Marker.getLabels refs (labelStore.filter (fun l => l._id != lid)) marker,
      l._id ≠ lid := by
    intro l hl
    have hls := getLabels_mem_store hl
    rw [List.mem_filter] at hls
    simpa using hls.2
  unfold createMarkerSearchDoc
  rw [hscene]
  refine ⟨_, rfl, ?_, ?_⟩
  · intro hmem
    simp only [List.mem_map] at hmem
    obtain ⟨l, hl, hleq⟩ := hmem
    exact hid l hl hleq
  · intro n hn
    simp only [List.mem_flatten, List.mem_map] at hn
    obtain ⟨nl, ⟨l, hl, hnl⟩, hn'⟩ := hn
    refine ⟨l, ?_, hid l hl, ?_⟩
    · have hls := getLabels_mem_store hl
      exact hls
    · rw [← hnl] at hn'
      rcases List.mem_cons.mp hn' with h | h
      · exact Or.inl h
      · exact Or.inr h

/-- Witness for C8: a marker with a dangling label edge (the label was
deleted from the store) still builds a document, without the deleted
label's id or names. -/
theorem createMarkerSearchDoc_dangling_label_witness :
    ∃ doc, createMarkerSearchDoc [⟨0, "mk_1", "la_gone"⟩]
        ([lbl0].filter (fun l => l._id != "la_gone")) [sc0] [] m0 = .ok doc ∧
      "la_gone" ∉ doc.labels ∧
      ∀ n ∈ doc.labelNames, ∃ l, l ∈ [lbl0].filter (fun l => l._id != "la_gone") ∧
        l._id ≠ "la_gone" ∧ (n = l.name ∨ n ∈ l.aliases) :=
  createMarkerSearchDoc_dangling_label [⟨0, "mk_1", "la_gone"⟩] [lbl0] [sc0] [] m0
    "la_gone" sc0 (by decide)

/-! ### Lemmas about the query translator -/

theorem filterFavorites_children (f : FilterTreeGrouping) (o : MarkerSearchQuery) :
    filterFavorites f o =
      ⟨f.gtype, f.children ++
        if o.favorite = some true then
          [.condition "=" "favorite" "boolean" (.boolean true)] else []⟩ := by
  by_cases h : o.favorite = some true <;> simp [filterFavorites, h]

theorem filterBookmark_children (f : FilterTreeGrouping) (o : MarkerSearchQuery) :
    filterBookmark f o =
      ⟨f.gtype, f.children ++
        if o.bookmark = some true then
          [.condition ">" "bookmark" "number" (.num 0)] else []⟩ := by
  by_cases h : o.bookmark = some true <;> simp [filterBookmark, h]

theorem filterRating_children (f : FilterTreeGrouping) (o : MarkerSearchQuery) :
    filterRating f o =
      ⟨f.gtype, f.children ++
        if (o.rating.getD 0) ≠ 0 then
          [.condition ">" "rating" "number" (.num ((o.rating.getD 0 : Int) - 1))]
        else []⟩ := by
  cases hr : o.rating with
  | none => simp [filterRating, hr]
  | some r =>
    by_cases h : r = 0 <;> simp [filterRating, hr, h]

theorem filterInclude_children (f : FilterTreeGrouping) (o : MarkerSearchQuery) :
    filterInclude f o =
      ⟨f.gtype, f.children ++
        if (o.include_.getD []) ≠ [] then
          [.grouping "AND" ((o.include_.getD []).map
            (fun id => .condition "?" "labels" "array" (.str id)))]
        else []⟩ := by
  cases hi : o.include_ with
  | none => simp [filterInclude, hi]
  | some ids =>
    by_cases h : ids = [] <;> simp [filterInclude, hi, h]

theorem filterExclude_children (f : FilterTreeGrouping) (o : MarkerSearchQuery) :
    filterExclude f o =
      ⟨f.gtype, f.children ++
        if (o.exclude.getD []) ≠ [] then
          [.grouping "AND" ((o.exclude.getD []).map
            (fun id => .condition "!?" "labels" "array" (.str id)))]
        else []⟩ := by
  cases he : o.exclude with
  | none => simp [filterExclude, he]
  | some ids =>
    by_cases h : ids = [] <;> simp [filterExclude, he, h]

/-- The filter tree of a marker search, in closed form: the root is the
`AND` grouping and the child list is the concatenation of one optional
segment per filter, each empty or a single predicate. -/
theorem buildMarkerFilter_spec (o : MarkerSearchQuery) :
    buildMarkerFilter o =
      ⟨"AND",
        (if o.favorite = some true then
          [.condition "=" "favorite" "boolean" (.boolean true)] else []) ++
        (if o.bookmark = some true then
          [.condition ">" "bookmark" "number" (.num 0)] else []) ++
        (if (o.rating.getD 0) ≠ 0 then
          [.condition ">" "rating" "number" (.num ((o.rating.getD 0 : Int) - 1))]
        else []) ++
        (if (o.include_.getD []) ≠ [] then
          [.grouping "AND" ((o.include_.getD []).map
            (fun id => .condition "?" "labels" "array" (.str id)))]
        else []) ++
        (if (o.exclude.getD []) ≠ [] then
          [.grouping "AND" ((o.exclude.getD []).map
            (fun id => .condition "!?" "labels" "array" (.str id)))]
        else [])⟩ := by
  unfold buildMarkerFilter
  rw [filterFavorites_children, filterBookmark_children, filterRating_children,
    filterInclude_children, filterExclude_children]
  simp [List.append_assoc]

/-- Claim C7: the translator produces a filter tree rooted at a boolean
`AND` grouping; each active filter contributes exactly one child and an
absent filter contributes none, so the child count equals the number of
active filters and a query with no active filters yields an empty child
list. -/
theorem searchMarkers_filter_tree (o : MarkerSearchQuery) (seed : String) :
    (searchMarkers o seed).filter.gtype = "AND" ∧
    (searchMarkers o seed).filter.children.length = numActiveFilters o ∧
    (numActiveFilters o = 0 → (searchMarkers o seed).filter.children = []) := by
  have hfil : (searchMarkers o seed).filter = buildMarkerFilter o := rfl
  have hspec := buildMarkerFilter_spec o
  have hlen : (searchMarkers o seed).filter.children.length = numActiveFilters o := by
    rw [hfil, hspec]
    simp only [List.length_append, numActiveFilters, apply_ite List.length,
      List.length_singleton, List.length_nil]
  refine ⟨by rw [hfil, hspec], hlen, ?_⟩
  intro h0
  exact List.eq_nil_of_length_eq_zero (hlen.trans h0)

/-- Witness for C7: the query with every field absent yields the `AND`
root with an empty child list. -/
theorem searchMarkers_filter_tree_witness :
    (searchMarkers qNoFilters "default").filter.children = [] :=
  (searchMarkers_filter_tree qNoFilters "default").2.2 rfl

/-- Counterexample to claim C4: for the concrete query whose sort key is
the unrecognized `"invalidKey"`, the translator does not fail — it
produces a complete engine request whose sort spec carries the
unrecognized key with an undefined (`none`) `sort_type` and whose
pagination is fully normalized, i.e. the index engine call proceeds. -/
theorem searchMarkers_invalid_sort_no_failure :
    (searchMarkers qBadSort "default").sort =
      some { sort_by := "invalidKey", sort_asc := false, sort_type := none } ∧
    (searchMarkers qBadSort "default").pagination = { skip := 0, take := 24 } := by
  constructor <;> decide

/-- Claim C4 as amended: for every query whose sort key is set, nonempty,
and neither the shuffle marker nor a recognized key, the translator does
not raise any error; it emits a sort spec with the unrecognized key, the
requested direction, and an undefined (`none`) `sort_type`, and proceeds
to the engine call. -/
theorem searchMarkers_unrecognized_sort (o : MarkerSearchQuery) (seed k : String)
    (hk : o.sortBy = some k) (h0 : k ≠ "") (h1 : k ≠ "$shuffle")
    (h2 : k ≠ "addedOn") (h3 : k ≠ "name") (h4 : k ≠ "rating") (h5 : k ≠ "bookmark") :
    (searchMarkers o seed).sort =
      some { sort_by := k, sort_asc := decide (o.sortDir = some "asc"),
             sort_type := none } := by
  show buildMarkerSort o seed = _
  unfold buildMarkerSort sortTypeFor
  rw [hk]
  simp [h0, h1, h2, h3, h4, h5]

/-- Witness for the amended C4: instantiated at the concrete query with
sort key `"invalidKey"`. -/
theorem searchMarkers_unrecognized_sort_witness :
    (searchMarkers qBadSort "default").sort =
      some { sort_by := "invalidKey",
             sort_asc := decide (qBadSort.sortDir = some "asc"),
             sort_type := none } :=
  searchMarkers_unrecognized_sort qBadSort "default" "invalidKey" rfl
    (by decide) (by decide) (by decide) (by decide) (by decide) (by decide)

/-- Claim C5: for a shuffle query the translator emits the sort spec whose
`sort_by` is the shuffle marker and whose `sort_type` carries the seed
verbatim; consequently two searches with equal seeds submit identical
sort specs to the engine, and distinct seeds submit distinct sort specs
(the emitted spec determines the seed). -/
theorem searchMarkers_shuffle_seed_determines_sort (o : MarkerSearchQuery)
    (s1 s2 : String) (h : o.sortBy = some "$shuffle") :
    (searchMarkers o s1).sort =
      some { sort_by := "$shuffle", sort_asc := false, sort_type := some s1 } ∧
    ((searchMarkers o s1).sort = (searchMarkers o s2).sort ↔ s1 = s2) := by
  have e : ∀ s : String, (searchMarkers o s).sort =
      some { sort_by := "$shuffle", sort_asc := false, sort_type := some s } := by
    intro s
    show buildMarkerSort o s = _
    unfold buildMarkerSort
    rw [h]
    simp
  refine ⟨e s1, ?_⟩
  rw [e s1, e s2]
  simp

/-- Witness for C5: instantiated at the concrete shuffle query with seeds
`"a"` and `"b"`. -/
theorem searchMarkers_shuffle_seed_determines_sort_witness :
    (searchMarkers qShuffle "a").sort =
      some { sort_by := "$shuffle", sort_asc := false, sort_type := some "a" } ∧
    ((searchMarkers qShuffle "a").sort = (searchMarkers qShuffle "b").sort ↔
      "a" = "b") :=
  searchMarkers_shuffle_seed_determines_sort qShuffle "a" "b" rfl

/-- Claim C6: the pagination engine normalizes to a single skip/take pair:
`page = p` with page size `s` (and no explicit skip/take) gives
`skip = p * s, take = s`; explicit skip/take override any page; and with
everything absent the documented default `skip = 0, take = s` (the default
page size) is used. -/
theorem buildPagination_normalizes (s p t sk : Nat) (page? : Option Nat) :
    buildPagination s none none (some p) = { skip := p * s, take := s } ∧
    buildPagination s (some t) (some sk) page? = { skip := sk, take := t } ∧
    buildPagination s none none none = { skip := 0, take := s } :=
  ⟨rfl, rfl, rfl⟩
